import Mathlib

/-!
Shallow embedding of the qsdpharmalytics sales-analytics backend.

The ledger is a list of `Sale` rows (one per transaction line item,
`src/app/models/sales.py`).  Timestamps are modelled at day resolution as
integer day numbers (days since 1970-01-01); monetary values are exact
rationals standing for the reference implementation's floats.

The aggregation engine (`src/app/core/analytics.py`) is embedded as pure
functions from a ledger and query parameters to result rows; the SQL
`WHERE`/`GROUP BY`/`ORDER BY` pipeline becomes filter / key-dedup /
sort on lists.
-/

namespace Pharmalytics

/-! ## Calendar: civil date arithmetic and `date_trunc` semantics

Day numbers are days since 1970-01-01.  `civilFromDays` / `daysFromCivil`
are the standard civil-calendar conversions, used to give the SQL
`date_trunc('month'|'quarter'|'year', ·)` and `extract('month', ·)`
operations of the queries an executable meaning. -/

structure Ymd where
  year : Int
  month : Int
  day : Int
deriving DecidableEq, Repr

def civilFromDays (z : Int) : Ymd :=
  let z' := z + 719468
  let era := Int.fdiv z' 146097
  let doe := z' - era * 146097
  let yoe := Int.fdiv (doe - Int.fdiv doe 1460 + Int.fdiv doe 36524 - Int.fdiv doe 146096) 365
  let y := yoe + era * 400
  let doy := doe - (365 * yoe + Int.fdiv yoe 4 - Int.fdiv yoe 100)
  let mp := Int.fdiv (5 * doy + 2) 153
  let d := doy - Int.fdiv (153 * mp + 2) 5 + 1
  let m := mp + (if mp < 10 then 3 else -9)
  ⟨y + (if m ≤ 2 then 1 else 0), m, d⟩

def daysFromCivil (ymd : Ymd) : Int :=
  let y := ymd.year - (if ymd.month ≤ 2 then 1 else 0)
  let era := Int.fdiv y 400
  let yoe := y - era * 400
  let mp := ymd.month + (if 2 < ymd.month then -3 else 9)
  let doy := Int.fdiv (153 * mp + 2) 5 + ymd.day - 1
  let doe := yoe * 365 + Int.fdiv yoe 4 - Int.fdiv yoe 100 + doy
  era * 146097 + doe - 719468

/-- `func.date`: day-resolution timestamps truncate to themselves. -/
def truncDay (n : Int) : Int := n

/-- `date_trunc('week', ·)`: the Monday of the week.  Day 0 (1970-01-01)
is a Thursday, so `(n + 3) mod 7` is the ISO weekday index (Monday = 0). -/
def truncWeek (n : Int) : Int := n - Int.emod (n + 3) 7

/-- `date_trunc('month', ·)`: first day of the month. -/
def truncMonth (n : Int) : Int :=
  let c := civilFromDays n
  daysFromCivil ⟨c.year, c.month, 1⟩

/-- `date_trunc('quarter', ·)`: first day of the quarter. -/
def truncQuarter (n : Int) : Int :=
  let c := civilFromDays n
  daysFromCivil ⟨c.year, 3 * Int.fdiv (c.month - 1) 3 + 1, 1⟩

/-- `date_trunc('year', ·)`: January 1 of the year. -/
def truncYear (n : Int) : Int :=
  let c := civilFromDays n
  daysFromCivil ⟨c.year, 1, 1⟩

/-- `extract('dow', ·)`: PostgreSQL day of week, Sunday = 0.
Day 0 is a Thursday, hence the offset 4. -/
def extractDow (n : Int) : Int := Int.emod (n + 4) 7

/-- `extract('month', ·)`: calendar month 1–12. -/
def extractMonth (n : Int) : Int := (civilFromDays n).month

/-! ## The Sale row (`src/app/models/sales.py`)

Nullable columns are `Option`s; `product_name` and `product_category`
are `nullable=False`. -/

structure Sale where
  id : Nat
  product_name : String
  product_category : String
  product_code : String
  quantity : Int
  unit_price : ℚ
  total_price : ℚ
  discount : Option ℚ
  pharmacy_name : Option String
  pharmacy_location : Option String
  customer_type : Option String
  sale_date : Int
  payment_method : Option String
  campaign_id : Option String
  sales_rep : Option String
  notes : Option String
  is_active : Bool
  created_at : Int
  updated_at : Int
deriving DecidableEq, Repr

/-- The date-range part of the `WHERE` clause shared by every aggregation
query: `Sale.sale_date >= start_date AND Sale.sale_date <= end_date`. -/
def inPeriod (start_date end_date : Int) (x : Sale) : Bool :=
  decide (start_date ≤ x.sale_date) && decide (x.sale_date ≤ end_date)

/-- Removing the inactive rows of a ledger (the soft-deleted ones). -/
def activeOnly (db : List Sale) : List Sale :=
  db.filter (fun x => x.is_active)

/-- Filtering a ledger by a condition that subsumes `is_active` gives the
same rows whether or not the inactive rows were removed first. -/
theorem filter_activeOnly (db : List Sale) (p : Sale → Bool)
    (h : ∀ x, p x = true → x.is_active = true) :
    (activeOnly db).filter p = db.filter p := by
  induction db with
  | nil => rfl
  | cons a t ih =>
    by_cases ha : a.is_active = true
    · by_cases hp : p a = true
      · simp [activeOnly, List.filter_cons, ha, hp] at *
        simpa [hp] using ih
      · simp [activeOnly, List.filter_cons, ha, hp] at *
        simpa [hp] using ih
    · have hp : p a = false := by
        cases hpa : p a with
        | false => rfl
        | true => exact absurd (h a hpa) ha
      simp [activeOnly, List.filter_cons, ha, hp] at *
      simpa [hp] using ih

/-! ## Sorting helpers (the `ORDER BY` clauses) -/

/-- `ORDER BY key ASC`. -/
def sortAscBy {α β : Type} [LinearOrder β] (f : α → β) (l : List α) : List α :=
  List.insertionSort (fun a b => f a ≤ f b) l

/-- `ORDER BY key DESC`. -/
def sortDescBy {α β : Type} [LinearOrder β] (f : α → β) (l : List α) : List α :=
  List.insertionSort (fun a b => f b ≤ f a) l

theorem sortAscBy_sorted {α β : Type} [LinearOrder β] (f : α → β) (l : List α) :
    List.Sorted (fun a b => f a ≤ f b) (sortAscBy f l) := by
  haveI : IsTotal α (fun a b => f a ≤ f b) := ⟨fun a b => le_total (f a) (f b)⟩
  haveI : IsTrans α (fun a b => f a ≤ f b) := ⟨fun _ _ _ h1 h2 => le_trans h1 h2⟩
  exact List.sorted_insertionSort _ l

theorem sortDescBy_sorted {α β : Type} [LinearOrder β] (f : α → β) (l : List α) :
    List.Sorted (fun a b => f b ≤ f a) (sortDescBy f l) := by
  haveI : IsTotal α (fun a b => f b ≤ f a) := ⟨fun a b => le_total (f b) (f a)⟩
  haveI : IsTrans α (fun a b => f b ≤ f a) := ⟨fun _ _ _ h1 h2 => le_trans h2 h1⟩
  exact List.sorted_insertionSort _ l

theorem sortAscBy_perm {α β : Type} [LinearOrder β] (f : α → β) (l : List α) :
    (sortAscBy f l).Perm l :=
  List.perm_insertionSort _ l

theorem sortDescBy_perm {α β : Type} [LinearOrder β] (f : α → β) (l : List α) :
    (sortDescBy f l).Perm l :=
  List.perm_insertionSort _ l

/-- `round(x, 2)`: rounding to two decimal places. -/
def round2 (x : ℚ) : ℚ := ((round (x * 100) : ℤ) : ℚ) / 100

/-! ## Aggregation Engine (`src/app/core/analytics.py`) -/

/-- Result of `AnalyticsService.get_performance_summary`. -/
structure PerformanceSummary where
  total_revenue : ℚ
  total_quantity : Int
  total_transactions : Nat
  avg_order_value : ℚ
  unique_products : Nat
  unique_pharmacies : Nat
deriving DecidableEq, Repr

/-- `AnalyticsService.get_performance_summary`: totals over the active rows
of the inclusive date range; `COUNT(DISTINCT ·)` skips NULLs; the `or 0`
fallbacks make the empty range yield zeros. -/
def get_performance_summary (db : List Sale) (start_date end_date : Int) :
    PerformanceSummary :=
  let rows := db.filter (fun x => inPeriod start_date end_date x && x.is_active)
  { total_revenue := (rows.map (·.total_price)).sum
    total_quantity := (rows.map (·.quantity)).sum
    total_transactions := rows.length
    avg_order_value :=
      if rows.length = 0 then 0 else (rows.map (·.total_price)).sum / rows.length
    unique_products := ((rows.map (·.product_name)).dedup).length
    unique_pharmacies := ((rows.filterMap (·.pharmacy_name)).dedup).length }

/-- One bucket row of `get_sales_performance` / `get_revenue_analysis`;
the period key is the truncated day number. -/
structure PerfRow where
  period : Int
  revenue : ℚ
  quantity : Int
  transactions : Nat
  avg_order_value : ℚ
deriving DecidableEq, Repr

/-- The `if period == ... date_group` chain of
`AnalyticsService.get_sales_performance`: day, week, month and year select
their truncation; everything else (note: including `"quarter"`) falls to
the `else` branch, month truncation. -/
def perfDateGroup (period : String) : Int → Int :=
  if period = "day" then truncDay
  else if period = "week" then truncWeek
  else if period = "month" then truncMonth
  else if period = "year" then truncYear
  else truncMonth

/-- `AnalyticsService.get_sales_performance`: group the active in-range rows
by truncated sale date, `ORDER BY` the truncated date ascending. -/
def get_sales_performance (db : List Sale) (start_date end_date : Int)
    (period : String) : List PerfRow :=
  let rows := db.filter (fun x => inPeriod start_date end_date x && x.is_active)
  let key := fun (x : Sale) => perfDateGroup period x.sale_date
  let keys := sortAscBy id ((rows.map key).dedup)
  keys.map (fun k =>
    let g := rows.filter (fun x => decide (key x = k))
    { period := k
      revenue := (g.map (·.total_price)).sum
      quantity := (g.map (·.quantity)).sum
      transactions := g.length
      avg_order_value :=
        if g.length = 0 then 0 else (g.map (·.total_price)).sum / g.length })

/-- One row of `get_market_share`. -/
structure MarketShareRow where
  segment : String
  revenue : ℚ
  quantity : Int
  transactions : Nat
  market_share_pct : ℚ
deriving DecidableEq, Repr

/-- Pre-percentage group of `get_market_share`. -/
structure MSGroup where
  segment : String
  revenue : ℚ
  quantity : Int
  transactions : Nat
deriving DecidableEq, Repr

/-- The grouping-field dictionary of `get_market_share`
(`.get(group_by, Sale.product_category)`).  `product_name` and
`product_category` are `nullable=False`, hence always `some`. -/
def marketShareField (group_by : String) (x : Sale) : Option String :=
  if group_by = "product" then some x.product_name
  else if group_by = "category" then some x.product_category
  else if group_by = "pharmacy" then x.pharmacy_name
  else if group_by = "location" then x.pharmacy_location
  else some x.product_category

/-- The percentage-attaching comprehension at the end of
`get_market_share`: compute the total revenue over the returned groups and
attach `market_share_pct = round(revenue / total_revenue * 100, 2)` when
the total is positive and `0` otherwise. -/
def attachShare (sorted : List MSGroup) : List MarketShareRow :=
  let total_revenue := (sorted.map (·.revenue)).sum
  sorted.map (fun t =>
    { segment := t.segment, revenue := t.revenue, quantity := t.quantity,
      transactions := t.transactions,
      market_share_pct :=
        if 0 < total_revenue then round2 (t.revenue / total_revenue * 100) else 0 })

/-- `AnalyticsService.get_market_share`: group the active in-range rows with
non-NULL grouping field, `ORDER BY SUM(total_price) DESC`, then attach the
market-share percentages. -/
def get_market_share (db : List Sale) (start_date end_date : Int)
    (group_by : String) : List MarketShareRow :=
  let rows := db.filter (fun x =>
    inPeriod start_date end_date x && x.is_active &&
      (marketShareField group_by x).isSome)
  let keys := (rows.filterMap (marketShareField group_by)).dedup
  let groups : List MSGroup := keys.map (fun k =>
    let g := rows.filter (fun x => decide (marketShareField group_by x = some k))
    { segment := k
      revenue := (g.map (·.total_price)).sum
      quantity := (g.map (·.quantity)).sum
      transactions := g.length })
  attachShare (sortDescBy (·.revenue) groups)

/-- One row of `get_top_products`. -/
structure TopProductRow where
  product_name : String
  product_category : String
  revenue : ℚ
  quantity : Int
  frequency : Nat
  avg_order_value : ℚ
deriving DecidableEq, Repr

/-- `AnalyticsService.get_top_products`: group the active in-range rows by
(product name, category); `ORDER BY` the metric sum descending — `revenue`
and `quantity` select their sums, anything else (the `else:  # frequency`
branch) the transaction count; `LIMIT limit`. -/
def get_top_products (db : List Sale) (start_date end_date : Int)
    (metric : String) (limit : Nat) : List TopProductRow :=
  let rows := db.filter (fun x => inPeriod start_date end_date x && x.is_active)
  let keys := (rows.map (fun x => (x.product_name, x.product_category))).dedup
  let groups : List TopProductRow := keys.map (fun k =>
    let g := rows.filter (fun x => decide ((x.product_name, x.product_category) = k))
    { product_name := k.1
      product_category := k.2
      revenue := (g.map (·.total_price)).sum
      quantity := (g.map (·.quantity)).sum
      frequency := g.length
      avg_order_value :=
        if g.length = 0 then 0 else (g.map (·.total_price)).sum / g.length })
  let ordered :=
    if metric = "revenue" then sortDescBy (·.revenue) groups
    else if metric = "quantity" then sortDescBy (·.quantity) groups
    else sortDescBy (·.frequency) groups
  ordered.take limit

/-! ## Percentiles (`np.percentile`, linear interpolation) -/

/-- Linear interpolation into a list at fractional position `h`:
`x[i] + (h - i) * (x[min(i+1, n-1)] - x[i])` with `i = ⌊h⌋`. -/
def interpolate (xs : List ℚ) (h : ℚ) : ℚ :=
  let i : Nat := (⌊h⌋).toNat
  let lo := xs.getD i 0
  let hi := xs.getD (min (i + 1) (xs.length - 1)) 0
  lo + (h - (i : ℚ)) * (hi - lo)

/-- `np.percentile(l, q)` with the default linear interpolation: sort
ascending and interpolate at position `(n - 1) * q / 100`. -/
def percentile (l : List ℚ) (q : ℚ) : ℚ :=
  interpolate (sortAscBy id l) (((l.length : ℚ) - 1) * q / 100)

/-- One per-pharmacy row of `get_customer_analysis`. -/
structure CustomerRow where
  pharmacy_name : String
  total_revenue : ℚ
  total_quantity : Int
  total_orders : Nat
  avg_order_value : ℚ
  last_order_date : Option Int
deriving DecidableEq, Repr

/-- The `segments` dict of `get_customer_analysis`. -/
structure Segments where
  high_value : Nat
  medium_value : Nat
  low_value : Nat
deriving DecidableEq, Repr

/-- Result of `get_customer_analysis`. -/
structure CustomerAnalysis where
  total_customers : Nat
  segments : Segments
  top_customers : List CustomerRow
  avg_customer_value : ℚ
deriving DecidableEq, Repr

/-- `AnalyticsService.get_customer_analysis`: per-pharmacy aggregates over
the active in-range rows with non-NULL pharmacy name; 3-tier segmentation
from `np.percentile(revenues, [33, 66, 90])`, of which indices `[1]` and
`[2]` (the 66th and 90th percentiles) are used; top customers sorted by
revenue descending. -/
def get_customer_analysis (db : List Sale) (start_date end_date : Int) :
    CustomerAnalysis :=
  let rows := db.filter (fun x =>
    inPeriod start_date end_date x && x.is_active && x.pharmacy_name.isSome)
  let keys := (rows.filterMap (·.pharmacy_name)).dedup
  let customers : List CustomerRow := keys.map (fun k =>
    let g := rows.filter (fun x => decide (x.pharmacy_name = some k))
    { pharmacy_name := k
      total_revenue := (g.map (·.total_price)).sum
      total_quantity := (g.map (·.quantity)).sum
      total_orders := g.length
      avg_order_value :=
        if g.length = 0 then 0 else (g.map (·.total_price)).sum / g.length
      last_order_date := (g.map (·.sale_date)).max? })
  let revenues := customers.map (·.total_revenue)
  let segments : Segments :=
    if revenues.isEmpty then ⟨0, 0, 0⟩
    else
      let revenue_percentiles :=
        [percentile revenues 33, percentile revenues 66, percentile revenues 90]
      let p66 := revenue_percentiles.getD 1 0
      let p90 := revenue_percentiles.getD 2 0
      { high_value := revenues.countP (fun r => decide (p90 ≤ r))
        medium_value := revenues.countP (fun r => decide (p66 ≤ r) && decide (r < p90))
        low_value := revenues.countP (fun r => decide (r < p66)) }
  { total_customers := customers.length
    segments := segments
    top_customers := sortDescBy (·.total_revenue) customers
    avg_customer_value :=
      if revenues.isEmpty then 0 else revenues.sum / revenues.length }

/-- One row of `get_revenue_analysis`. -/
structure RevenueRow where
  period : Int
  revenue : ℚ
  gross_revenue : ℚ
  total_discount : ℚ
  transactions : Nat
  discount_rate : ℚ
deriving DecidableEq, Repr

/-- The `if group_by == ...` chain of `get_revenue_analysis`: day, week and
quarter select their truncation, everything else is month. -/
def revenueDateGroup (group_by : String) : Int → Int :=
  if group_by = "day" then truncDay
  else if group_by = "week" then truncWeek
  else if group_by = "quarter" then truncQuarter
  else truncMonth

/-- `AnalyticsService.get_revenue_analysis`: period buckets carrying net
revenue, gross revenue `SUM(quantity * unit_price)`, total discount, and
`discount_rate = round(total_discount / gross_revenue * 100, 2)` guarded by
the truthiness of `gross_revenue`. -/
def get_revenue_analysis (db : List Sale) (start_date end_date : Int)
    (group_by : String) : List RevenueRow :=
  let rows := db.filter (fun x => inPeriod start_date end_date x && x.is_active)
  let key := fun (x : Sale) => revenueDateGroup group_by x.sale_date
  let keys := sortAscBy id ((rows.map key).dedup)
  keys.map (fun k =>
    let g := rows.filter (fun x => decide (key x = k))
    let gross := (g.map (fun x => (x.quantity : ℚ) * x.unit_price)).sum
    let disc := (g.map (fun x => x.discount.getD 0)).sum
    { period := k
      revenue := (g.map (·.total_price)).sum
      gross_revenue := gross
      total_discount := disc
      transactions := g.length
      discount_rate := if gross = 0 then 0 else round2 (disc / gross * 100) })

/-- Result of `calculate_growth_rate`. -/
structure GrowthStats where
  first_half_revenue : ℚ
  second_half_revenue : ℚ
  growth_rate_pct : ℚ
deriving DecidableEq, Repr

/-- `AnalyticsService.calculate_growth_rate`: split the range at
`start + (end - start) // 2`, sum active revenue in `[start, mid)` and
`[mid, end]`, and report `(second - first) / first * 100` rounded to 2
decimals whenever `first > 0`, else `0`. -/
def calculate_growth_rate (db : List Sale) (start_date end_date : Int) :
    GrowthStats :=
  let period_length := end_date - start_date
  let mid_point := start_date + Int.fdiv period_length 2
  let first_half := ((db.filter (fun x =>
    decide (start_date ≤ x.sale_date) && decide (x.sale_date < mid_point) &&
      x.is_active)).map (·.total_price)).sum
  let second_half := ((db.filter (fun x =>
    decide (mid_point ≤ x.sale_date) && decide (x.sale_date ≤ end_date) &&
      x.is_active)).map (·.total_price)).sum
  let growth_rate :=
    if 0 < first_half then (second_half - first_half) / first_half * 100 else 0
  { first_half_revenue := first_half
    second_half_revenue := second_half
    growth_rate_pct := round2 growth_rate }

/-- One labelled bucket of `get_seasonality_analysis`. -/
structure SeasonRow where
  label : String
  avg_revenue : ℚ
deriving DecidableEq, Repr

/-- Result of `get_seasonality_analysis`. -/
structure Seasonality where
  by_weekday : List SeasonRow
  by_month : List SeasonRow
deriving DecidableEq, Repr

def weekdayNames : List String := ["Dom", "Seg", "Ter", "Qua", "Qui", "Sex", "Sáb"]

def monthNames : List String :=
  ["Jan", "Fev", "Mar", "Abr", "Mai", "Jun", "Jul", "Ago", "Set", "Out", "Nov", "Dez"]

/-- `AnalyticsService.get_seasonality_analysis`: average revenue per
`extract('dow', ·)` bucket and per `extract('month', ·)` bucket over the
active in-range rows. -/
def get_seasonality_analysis (db : List Sale) (start_date end_date : Int) :
    Seasonality :=
  let rows := db.filter (fun x => inPeriod start_date end_date x && x.is_active)
  let dkeys := (rows.map (fun x => extractDow x.sale_date)).dedup
  let mkeys := (rows.map (fun x => extractMonth x.sale_date)).dedup
  { by_weekday := dkeys.map (fun k =>
      let g := rows.filter (fun x => decide (extractDow x.sale_date = k))
      { label := weekdayNames.getD k.toNat ""
        avg_revenue :=
          if g.length = 0 then 0 else (g.map (·.total_price)).sum / g.length })
    by_month := mkeys.map (fun k =>
      let g := rows.filter (fun x => decide (extractMonth x.sale_date = k))
      { label := monthNames.getD (k - 1).toNat ""
        avg_revenue :=
          if g.length = 0 then 0 else (g.map (·.total_price)).sum / g.length }) }

/-- One `{value, change_pct, direction}` triple of `compare_periods`. -/
structure ChangeRow where
  value : ℚ
  change_pct : ℚ
  direction : String
deriving DecidableEq, Repr

/-- The inner `calc_change` of `AnalyticsService.compare_periods`:
a zero baseline yields 0% change with direction `neutral`. -/
def calc_change (current previous : ℚ) : ChangeRow :=
  if previous = 0 then { value := current, change_pct := 0, direction := "neutral" }
  else
    let change_pct := (current - previous) / previous * 100
    { value := current
      change_pct := round2 change_pct
      direction :=
        if 0 < change_pct then "up" else if change_pct < 0 then "down" else "neutral" }

/-- Result of `compare_periods`. -/
structure PeriodComparison where
  revenue : ChangeRow
  transactions : ChangeRow
  avg_order_value : ChangeRow
deriving DecidableEq, Repr

/-- `AnalyticsService.compare_periods` applied to two performance
summaries. -/
def compare_periods (current_summary previous_summary : PerformanceSummary) :
    PeriodComparison :=
  { revenue :=
      calc_change current_summary.total_revenue previous_summary.total_revenue
    transactions :=
      calc_change (current_summary.total_transactions : ℚ)
        (previous_summary.total_transactions : ℚ)
    avg_order_value :=
      calc_change current_summary.avg_order_value previous_summary.avg_order_value }

/-! ## Sales API endpoints (`src/app/api/v1/sales.py`) -/

/-- Substring search on character lists. -/
def hasSubList (needle : List Char) : List Char → Bool
  | [] => needle.isEmpty
  | c :: t => needle.isPrefixOf (c :: t) || hasSubList needle t

/-- `column.ilike(f"%\x7bparam\x7d%")`: case-insensitive containment. -/
def ilikeContains (value : String) (param : String) : Bool :=
  hasSubList param.toLower.data value.toLower.data

/-- An optional `ilike` filter: applied only when the query parameter is
present and truthy (Python `if param:` skips `None` and `""`); an `ilike`
against a NULL column value does not match. -/
def applyIlike (l : List Sale) (param : Option String)
    (field : Sale → Option String) : List Sale :=
  match param with
  | none => l
  | some p =>
      if p = "" then l
      else l.filter (fun x =>
        match field x with
        | some v => ilikeContains v p
        | none => false)

/-- The `SalesResponse` payload of the listing endpoint. -/
structure SalesResponse where
  sales : List Sale
  total : Nat
  page : Nat
  per_page : Nat
deriving DecidableEq, Repr

/-- `get_sales`: filter to active rows, apply the optional name / category
/ pharmacy / date filters, count, then order by `sale_date DESC` and
paginate with `OFFSET skip LIMIT limit`. -/
def get_sales (db : List Sale) (skip limit : Nat)
    (product_name category pharmacy : Option String)
    (start_date end_date : Option Int) : SalesResponse :=
  let q := db.filter (fun x => x.is_active)
  let q := applyIlike q product_name (fun x => some x.product_name)
  let q := applyIlike q category (fun x => some x.product_category)
  let q := applyIlike q pharmacy (fun x => x.pharmacy_name)
  let q := match start_date with
    | some s => q.filter (fun x => decide (s ≤ x.sale_date))
    | none => q
  let q := match end_date with
    | some e => q.filter (fun x => decide (x.sale_date ≤ e))
    | none => q
  { sales := ((sortDescBy (·.sale_date) q).drop skip).take limit
    total := q.length
    page := skip / limit + 1
    per_page := limit }

/-- `get_sale`: first active row with the requested id; `none` is the 404
case. -/
def get_sale (db : List Sale) (sale_id : Nat) : Option Sale :=
  (db.filter (fun x => decide (x.id = sale_id) && x.is_active)).head?

/-- The `SaleCreate` request schema (`src/v2.0/app/schemas/sales.py`):
all `SaleBase` fields plus an optional `sale_date`. -/
structure SaleCreate where
  product_name : String
  product_category : String
  product_code : String
  quantity : Int
  unit_price : ℚ
  discount : Option ℚ
  pharmacy_name : Option String
  pharmacy_location : Option String
  customer_type : Option String
  payment_method : Option String
  campaign_id : Option String
  sales_rep : Option String
  notes : Option String
  sale_date : Option Int
deriving DecidableEq, Repr

/-- The `@validator` checks of `SaleCreate`
(`src/v2.0/app/schemas/sales.py`, lines 25–35): `quantity` and
`unit_price` must be positive.  No field other than these two is
validated; in particular there is no validator on `sale_date`. -/
def saleCreateValid (sc : SaleCreate) : Bool :=
  decide (0 < sc.quantity) && decide (0 < sc.unit_price)

/-- `create_sale`: requests failing schema validation are rejected before
the handler runs; otherwise the handler computes
`total_price = quantity * unit_price - (discount or 0)` and inserts the row
with `sale_date = sale.sale_date or datetime.now()` and the model defaults
(`is_active=True`, `created_at/updated_at = now`).  Returns the new ledger
and the stored row. -/
def create_sale (db : List Sale) (sc : SaleCreate) (now : Int) (new_id : Nat) :
    Option (List Sale × Sale) :=
  if saleCreateValid sc then
    let row : Sale :=
      { id := new_id
        product_name := sc.product_name
        product_category := sc.product_category
        product_code := sc.product_code
        quantity := sc.quantity
        unit_price := sc.unit_price
        total_price := (sc.quantity : ℚ) * sc.unit_price - sc.discount.getD 0
        discount := sc.discount
        pharmacy_name := sc.pharmacy_name
        pharmacy_location := sc.pharmacy_location
        customer_type := sc.customer_type
        sale_date := sc.sale_date.getD now
        payment_method := sc.payment_method
        campaign_id := sc.campaign_id
        sales_rep := sc.sales_rep
        notes := sc.notes
        is_active := true
        created_at := now
        updated_at := now }
    some (db ++ [row], row)
  else none

/-- The `SaleUpdate` request schema (`src/v2.0/app/schemas/sales.py`): the
outer `Option` is "field present in the request" (pydantic
`exclude_unset=True`); for nullable columns the inner `Option` is the
supplied value. -/
structure SaleUpdate where
  product_name : Option String
  product_category : Option String
  quantity : Option Int
  unit_price : Option ℚ
  discount : Option (Option ℚ)
  pharmacy_name : Option (Option String)
  pharmacy_location : Option (Option String)
  customer_type : Option (Option String)
  payment_method : Option (Option String)
  notes : Option (Option String)
deriving DecidableEq, Repr

/-- The body of `update_sale` on the fetched row: `setattr` each supplied
field, recompute `total_price = quantity * unit_price - (discount or 0)`
from the post-update values iff any of `quantity`, `unit_price`,
`discount` was supplied, and stamp `updated_at`. -/
def applySaleUpdate (s : Sale) (u : SaleUpdate) (now : Int) : Sale :=
  let s1 : Sale := { s with
    product_name := u.product_name.getD s.product_name
    product_category := u.product_category.getD s.product_category
    quantity := u.quantity.getD s.quantity
    unit_price := u.unit_price.getD s.unit_price
    discount := u.discount.getD s.discount
    pharmacy_name := u.pharmacy_name.getD s.pharmacy_name
    pharmacy_location := u.pharmacy_location.getD s.pharmacy_location
    customer_type := u.customer_type.getD s.customer_type
    payment_method := u.payment_method.getD s.payment_method
    notes := u.notes.getD s.notes }
  let s2 : Sale :=
    if u.quantity.isSome || u.unit_price.isSome || u.discount.isSome then
      { s1 with total_price := (s1.quantity : ℚ) * s1.unit_price - s1.discount.getD 0 }
    else s1
  { s2 with updated_at := now }

/-- `update_sale`: 404 (`none`) when no active row has the id, otherwise
the fetched row is updated in place via `applySaleUpdate`. -/
def update_sale (db : List Sale) (sale_id : Nat) (u : SaleUpdate) (now : Int) :
    Option (List Sale) :=
  match (db.filter (fun x => decide (x.id = sale_id) && x.is_active)).head? with
  | none => none
  | some _ => some (db.map (fun x =>
      if decide (x.id = sale_id) && x.is_active then applySaleUpdate x u now else x))

/-! ## Report Composer insights (`src/app/core/reports.py`) -/

/-- The distinct insight messages of `ReportsService._generate_insights`;
each constructor stands for one f-string template. -/
inductive Insight where
  | excellent_growth (pct : ℚ)
  | positive_growth (pct : ℚ)
  | declining_revenue (pct : ℚ)
  | high_concentration (pct : ℚ)
  | well_distributed (pct : ℚ)
  | aov_growing
  | aov_declining
  | diversified_portfolio
  | concentrated_portfolio
deriving DecidableEq, Repr

/-- Whether an insight is one of the three revenue-growth messages. -/
def isRevenueInsight : Insight → Bool
  | .excellent_growth _ => true
  | .positive_growth _ => true
  | .declining_revenue _ => true
  | _ => false

/-- The revenue-growth figure of `_generate_insights`:
`(current - previous) / max(previous, 1) * 100`. -/
def revenueGrowth (current previous : PerformanceSummary) : ℚ :=
  (current.total_revenue - previous.total_revenue) /
    max previous.total_revenue 1 * 100

/-- The revenue-growth block of `_generate_insights`: one of three
messages by threshold. -/
def growthInsights (current previous : PerformanceSummary) : List Insight :=
  let revenue_growth := revenueGrowth current previous
  if 10 < revenue_growth then [.excellent_growth revenue_growth]
  else if 0 < revenue_growth then [.positive_growth revenue_growth]
  else [.declining_revenue revenue_growth]

/-- The top-5 concentration block of `_generate_insights`.  The source
divides by the current summary's `total_revenue` with no zero guard
(`concentration = (top_5_revenue / total_revenue) * 100`), so with a
non-empty top-products list and zero current total revenue Python raises
`ZeroDivisionError`; that failure is the `none` case. -/
def concentrationInsights (current : PerformanceSummary)
    (top_products : List TopProductRow) : Option (List Insight) :=
  if top_products.isEmpty then some []
  else
    let top_5_revenue := ((top_products.take 5).map (·.revenue)).sum
    if current.total_revenue = 0 then none
    else
      let concentration := top_5_revenue / current.total_revenue * 100
      if 80 < concentration then some [.high_concentration concentration]
      else if concentration < 50 then some [.well_distributed concentration]
      else some []

/-- The average-order-value block of `_generate_insights`. -/
def aovInsights (current previous : PerformanceSummary) : List Insight :=
  if previous.avg_order_value * (105 / 100) < current.avg_order_value then
    [.aov_growing]
  else if current.avg_order_value < previous.avg_order_value * (95 / 100) then
    [.aov_declining]
  else []

/-- The portfolio-diversification block of `_generate_insights`. -/
def portfolioInsights (current : PerformanceSummary) : List Insight :=
  if 50 < current.unique_products then [.diversified_portfolio]
  else if current.unique_products < 20 then [.concentrated_portfolio]
  else []

/-- `ReportsService._generate_insights`: the revenue-growth insight (one of
three), then the top-5 concentration insight, the average-order-value
insight, and the portfolio-diversification insight, each under its
threshold rule.  A `ZeroDivisionError` in the concentration step aborts
the whole function, so nothing is returned in that case (`none`), the
growth insight appended before the failure included.  The `market_share`
argument is accepted and unused, as in the source. -/
def generate_insights (current previous : PerformanceSummary)
    (top_products : List TopProductRow)
    (market_share : List MarketShareRow) : Option (List Insight) :=
  match concentrationInsights current top_products with
  | none => none
  | some conc =>
      some (growthInsights current previous ++ conc ++
        aovInsights current previous ++ portfolioInsights current)

/-! ## v2.0 math utilities (`src/v2.0/app/utils/data_processing.py`) -/

/-- `MathUtils.calculate_percentage_change`: a zero baseline maps to
`100.0` for positive new values and `0.0` otherwise. -/
def calculate_percentage_change (old_value new_value : ℚ) : ℚ :=
  if old_value = 0 then (if 0 < new_value then 100 else 0)
  else (new_value - old_value) / old_value * 100

/-! ## Claim theorems -/

/-- C10: `MathUtils.calculate_percentage_change` uses the opposite
zero-baseline convention from `compare_periods`: for `old_value = 0` it
returns `100.0` when `new_value > 0` and `0.0` otherwise, while the
aggregation engine's `calc_change` reports `0%` change on a zero
baseline. -/
theorem c10_percentage_change_zero_baseline :
    (∀ new_value : ℚ, calculate_percentage_change 0 new_value =
      if 0 < new_value then 100 else 0) ∧
    (∀ current : ℚ, (calc_change current 0).change_pct = 0) := by
  constructor
  · intro nv
    simp [calculate_percentage_change]
  · intro c
    simp [calc_change]

/-- C4: zero baselines report 0% change: `calculate_growth_rate` returns
`growth_rate_pct = 0` whenever the first half revenue is 0, regardless of
the second half, and `compare_periods` returns `change_pct = 0` with
direction `"neutral"` for revenue, transactions and average order value
whenever the previous period value is 0, regardless of the current one. -/
theorem c4_zero_baseline_neutral :
    (∀ (db : List Sale) (start_date end_date : Int),
      (calculate_growth_rate db start_date end_date).first_half_revenue = 0 →
      (calculate_growth_rate db start_date end_date).growth_rate_pct = 0) ∧
    (∀ current_summary previous_summary : PerformanceSummary,
      previous_summary.total_revenue = 0 →
      (compare_periods current_summary previous_summary).revenue =
        ⟨current_summary.total_revenue, 0, "neutral"⟩) ∧
    (∀ current_summary previous_summary : PerformanceSummary,
      previous_summary.total_transactions = 0 →
      (compare_periods current_summary previous_summary).transactions =
        ⟨(current_summary.total_transactions : ℚ), 0, "neutral"⟩) ∧
    (∀ current_summary previous_summary : PerformanceSummary,
      previous_summary.avg_order_value = 0 →
      (compare_periods current_summary previous_summary).avg_order_value =
        ⟨current_summary.avg_order_value, 0, "neutral"⟩) := by
  refine ⟨?_, ?_, ?_, ?_⟩
  · intro db s e h
    simp only [calculate_growth_rate] at h ⊢
    rw [h]
    norm_num [round2]
  · intro cs ps h
    simp [compare_periods, calc_change, h]
  · intro cs ps h
    simp [compare_periods, calc_change, h]
  · intro cs ps h
    simp [compare_periods, calc_change, h]

/-- C4 witness: the empty ledger has zero first-half revenue and a growth
rate of 0; all-zero previous summaries give neutral comparisons. -/
theorem c4_zero_baseline_neutral_witness :
    (calculate_growth_rate [] 0 10).growth_rate_pct = 0 ∧
    (compare_periods ⟨5, 5, 5, 5, 5, 5⟩ ⟨0, 7, 4, 3, 2, 1⟩).revenue =
      ⟨(5 : ℚ), 0, "neutral"⟩ ∧
    (compare_periods ⟨5, 5, 5, 5, 5, 5⟩ ⟨7, 7, 0, 3, 2, 1⟩).transactions =
      ⟨((5 : Nat) : ℚ), 0, "neutral"⟩ ∧
    (compare_periods ⟨5, 5, 5, 5, 5, 5⟩ ⟨7, 7, 4, 0, 2, 1⟩).avg_order_value =
      ⟨(5 : ℚ), 0, "neutral"⟩ :=
  ⟨c4_zero_baseline_neutral.1 [] 0 10 rfl,
   c4_zero_baseline_neutral.2.1 ⟨5, 5, 5, 5, 5, 5⟩ ⟨0, 7, 4, 3, 2, 1⟩ rfl,
   c4_zero_baseline_neutral.2.2.1 ⟨5, 5, 5, 5, 5, 5⟩ ⟨7, 7, 0, 3, 2, 1⟩ rfl,
   c4_zero_baseline_neutral.2.2.2 ⟨5, 5, 5, 5, 5, 5⟩ ⟨7, 7, 4, 0, 2, 1⟩ rfl⟩

/-- The concentration step of `_generate_insights` succeeds iff the
current total revenue is non-zero or the top-products list is empty. -/
theorem concentrationInsights_isSome (current : PerformanceSummary)
    (top_products : List TopProductRow) :
    (concentrationInsights current top_products).isSome = true ↔
      (current.total_revenue ≠ 0 ∨ top_products = []) := by
  simp only [concentrationInsights]
  by_cases hE : top_products.isEmpty = true
  · simp [hE, List.isEmpty_iff.mp hE]
  · have hne : top_products ≠ [] := fun h => hE (by simp [h])
    by_cases h0 : current.total_revenue = 0
    · simp [hE, h0, hne]
    · simp only [hE, h0, if_false, Bool.false_eq_true]
      split_ifs <;> simp [h0, hne]

/-- No branch of the concentration step emits a revenue insight. -/
theorem concentrationInsights_no_revenue (current : PerformanceSummary)
    (top_products : List TopProductRow) (l : List Insight)
    (h : concentrationInsights current top_products = some l) :
    l.countP isRevenueInsight = 0 := by
  simp only [concentrationInsights] at h
  split_ifs at h <;>
    first
      | exact Option.noConfusion h
      | (injection h with h; subst h; simp [isRevenueInsight])

def zeroRevenueSummary : PerformanceSummary :=
  { total_revenue := 0, total_quantity := 1, total_transactions := 1
    avg_order_value := 0, unique_products := 1, unique_pharmacies := 1 }

def freebieTopProduct : TopProductRow :=
  { product_name := "Brinde", product_category := "Amostras"
    revenue := 0, quantity := 1, frequency := 1, avg_order_value := 0 }

/-- C8 counterexample: with current total revenue 0 (e.g. every sale fully
discounted) and a non-empty top-products list, the unguarded concentration
division raises `ZeroDivisionError`, so `_generate_insights` returns
nothing at all — in particular no revenue insight is emitted, refuting
"exactly one revenue insight is always emitted". -/
theorem c8_counterexample_zero_division :
    generate_insights zeroRevenueSummary ⟨0, 0, 0, 0, 0, 0⟩
      [freebieTopProduct] [] = none := by
  norm_num [generate_insights, concentrationInsights, zeroRevenueSummary,
    freebieTopProduct]

/-- C8 (amended): revenue growth is
`(current − previous) / max(previous, 1) × 100`; insight generation
completes iff the current total revenue is non-zero or the top-products
list is empty (otherwise the unguarded concentration division raises and
nothing is emitted); whenever it completes, the returned list contains
exactly one revenue insight: excellent growth above 10%, positive growth
in (0, 10], declining at or below 0%. -/
theorem c8_revenue_insight (current previous : PerformanceSummary)
    (top_products : List TopProductRow) (market_share : List MarketShareRow) :
    revenueGrowth current previous =
      (current.total_revenue - previous.total_revenue) /
        max previous.total_revenue 1 * 100 ∧
    ((generate_insights current previous top_products market_share).isSome =
        true ↔ (current.total_revenue ≠ 0 ∨ top_products = [])) ∧
    (∀ insights : List Insight,
      generate_insights current previous top_products market_share =
        some insights →
      insights.countP isRevenueInsight = 1 ∧
      insights.filter isRevenueInsight =
        [if 10 < revenueGrowth current previous then
          .excellent_growth (revenueGrowth current previous)
        else if 0 < revenueGrowth current previous then
          .positive_growth (revenueGrowth current previous)
        else .declining_revenue (revenueGrowth current previous)]) := by
  have haov : (aovInsights current previous).countP isRevenueInsight = 0 := by
    simp only [aovInsights]
    split_ifs <;> simp [isRevenueInsight]
  have hport : (portfolioInsights current).countP isRevenueInsight = 0 := by
    simp only [portfolioInsights]
    split_ifs <;> simp [isRevenueInsight]
  refine ⟨rfl, ?_, ?_⟩
  · rw [← concentrationInsights_isSome current top_products]
    rcases hc : concentrationInsights current top_products with _ | conc <;>
      simp [generate_insights, hc]
  · intro insights h
    rcases hc : concentrationInsights current top_products with _ | conc
    · simp only [generate_insights, hc] at h
      exact Option.noConfusion h
    · simp only [generate_insights, hc, Option.some.injEq] at h
      subst h
      have hconc := concentrationInsights_no_revenue current top_products conc hc
      have hconcf : conc.filter isRevenueInsight = [] := by
        simpa [List.filter_eq_nil_iff, List.countP_eq_zero] using hconc
      have haovf : (aovInsights current previous).filter isRevenueInsight = [] := by
        simpa [List.filter_eq_nil_iff, List.countP_eq_zero] using haov
      have hportf : (portfolioInsights current).filter isRevenueInsight = [] := by
        simpa [List.filter_eq_nil_iff, List.countP_eq_zero] using hport
      constructor
      · simp only [List.countP_append, hconc, haov, hport, growthInsights]
        split_ifs <;> simp [isRevenueInsight]
      · simp only [List.filter_append, hconcf, haovf, hportf, growthInsights,
          List.append_nil]
        split_ifs <;> simp [isRevenueInsight]

/-- C8 witness: a successful run (empty top-products list, current revenue
5 against previous revenue 0) returns a list whose only revenue insight is
the excellent-growth message. -/
theorem c8_revenue_insight_witness :
    ([Insight.excellent_growth
        (revenueGrowth ⟨5, 5, 5, 5, 5, 5⟩ ⟨0, 7, 4, 3, 2, 1⟩),
      Insight.aov_growing, Insight.concentrated_portfolio] :
        List Insight).countP isRevenueInsight = 1 ∧
    ([Insight.excellent_growth
        (revenueGrowth ⟨5, 5, 5, 5, 5, 5⟩ ⟨0, 7, 4, 3, 2, 1⟩),
      Insight.aov_growing, Insight.concentrated_portfolio] :
        List Insight).filter isRevenueInsight =
      [if 10 < revenueGrowth ⟨5, 5, 5, 5, 5, 5⟩ ⟨0, 7, 4, 3, 2, 1⟩ then
        .excellent_growth (revenueGrowth ⟨5, 5, 5, 5, 5, 5⟩ ⟨0, 7, 4, 3, 2, 1⟩)
      else if 0 < revenueGrowth ⟨5, 5, 5, 5, 5, 5⟩ ⟨0, 7, 4, 3, 2, 1⟩ then
        .positive_growth (revenueGrowth ⟨5, 5, 5, 5, 5, 5⟩ ⟨0, 7, 4, 3, 2, 1⟩)
      else .declining_revenue
        (revenueGrowth ⟨5, 5, 5, 5, 5, 5⟩ ⟨0, 7, 4, 3, 2, 1⟩)] :=
  (c8_revenue_insight ⟨5, 5, 5, 5, 5, 5⟩ ⟨0, 7, 4, 3, 2, 1⟩ [] []).2.2
    [Insight.excellent_growth
        (revenueGrowth ⟨5, 5, 5, 5, 5, 5⟩ ⟨0, 7, 4, 3, 2, 1⟩),
      Insight.aov_growing, Insight.concentrated_portfolio]
    (by norm_num [generate_insights, concentrationInsights, growthInsights,
      aovInsights, portfolioInsights, revenueGrowth, max_def])

/-- C6: on an update of an existing active sale, `total_price` is
recomputed as `quantity × unit_price − discount` from the post-update
values iff one of the three financial fields was supplied; an update
touching none of them (e.g. notes only) changes exactly the supplied
fields plus the modified timestamp, and leaves `total_price` alone. -/
theorem c6_update_sale_total_price (s : Sale) (u : SaleUpdate) (now : Int) :
    ((u.quantity.isSome || u.unit_price.isSome || u.discount.isSome) = true →
      (applySaleUpdate s u now).total_price =
        ((u.quantity.getD s.quantity : ℚ)) * (u.unit_price.getD s.unit_price) -
          ((u.discount.getD s.discount).getD 0)) ∧
    (u.quantity = none → u.unit_price = none → u.discount = none →
      applySaleUpdate s u now = { s with
        product_name := u.product_name.getD s.product_name
        product_category := u.product_category.getD s.product_category
        pharmacy_name := u.pharmacy_name.getD s.pharmacy_name
        pharmacy_location := u.pharmacy_location.getD s.pharmacy_location
        customer_type := u.customer_type.getD s.customer_type
        payment_method := u.payment_method.getD s.payment_method
        notes := u.notes.getD s.notes
        updated_at := now }) := by
  constructor
  · intro h
    simp [applySaleUpdate, h]
  · intro h1 h2 h3
    simp [applySaleUpdate, h1, h2, h3]

def sampleSale : Sale :=
  { id := 7, product_name := "Dipirona", product_category := "Analgesicos"
    product_code := "DIP500", quantity := 3, unit_price := 10
    total_price := 28, discount := some 2, pharmacy_name := some "Alpha"
    pharmacy_location := some "SP", customer_type := some "retail"
    sale_date := 19700, payment_method := some "pix", campaign_id := none
    sales_rep := none, notes := none, is_active := true
    created_at := 19700, updated_at := 19700 }

def qtyOnlyUpdate : SaleUpdate :=
  { product_name := none, product_category := none, quantity := some 5
    unit_price := none, discount := none, pharmacy_name := none
    pharmacy_location := none, customer_type := none, payment_method := none
    notes := none }

def notesOnlyUpdate : SaleUpdate :=
  { product_name := none, product_category := none, quantity := none
    unit_price := none, discount := none, pharmacy_name := none
    pharmacy_location := none, customer_type := none, payment_method := none
    notes := some (some "rechecked") }

/-- C6 witness: a quantity-only update recomputes the total from the new
quantity and the stored price and discount; a notes-only update alters
only the notes and the modified timestamp. -/
theorem c6_update_sale_total_price_witness :
    (applySaleUpdate sampleSale qtyOnlyUpdate 19800).total_price =
      ((qtyOnlyUpdate.quantity.getD sampleSale.quantity : ℚ)) *
        (qtyOnlyUpdate.unit_price.getD sampleSale.unit_price) -
        ((qtyOnlyUpdate.discount.getD sampleSale.discount).getD 0) ∧
    applySaleUpdate sampleSale notesOnlyUpdate 19800 = { sampleSale with
      product_name := notesOnlyUpdate.product_name.getD sampleSale.product_name
      product_category :=
        notesOnlyUpdate.product_category.getD sampleSale.product_category
      pharmacy_name := notesOnlyUpdate.pharmacy_name.getD sampleSale.pharmacy_name
      pharmacy_location :=
        notesOnlyUpdate.pharmacy_location.getD sampleSale.pharmacy_location
      customer_type := notesOnlyUpdate.customer_type.getD sampleSale.customer_type
      payment_method :=
        notesOnlyUpdate.payment_method.getD sampleSale.payment_method
      notes := notesOnlyUpdate.notes.getD sampleSale.notes
      updated_at := 19800 } :=
  ⟨(c6_update_sale_total_price sampleSale qtyOnlyUpdate 19800).1 rfl,
   (c6_update_sale_total_price sampleSale notesOnlyUpdate 19800).2 rfl rfl rfl⟩

def futureSaleCreate : SaleCreate :=
  { product_name := "Dipirona", product_category := "Analgesicos"
    product_code := "DIP500", quantity := 2, unit_price := 10
    discount := none, pharmacy_name := none, pharmacy_location := none
    customer_type := none, payment_method := none, campaign_id := none
    sales_rep := none, notes := none, sale_date := some 200 }

/-- C5 counterexample: the claim says a `sale_date` later than the current
time is invalid and `create_sale` rejects it; but with current time 100 the
request dated 200 passes validation and is stored future-dated. -/
theorem c5_counterexample_future_date_accepted :
    saleCreateValid futureSaleCreate = true ∧
    (create_sale [] futureSaleCreate 100 1).isSome = true ∧
    ((create_sale [] futureSaleCreate 100 1).map (fun res => res.2.sale_date)) =
      some 200 := by
  refine ⟨?_, ?_, ?_⟩ <;>
    norm_num [create_sale, saleCreateValid, futureSaleCreate]

/-- C5 (amended): `create_sale` fails iff the request is invalid, where
invalid means non-positive quantity or non-positive unit price; the sale
date is not validated — the stored row carries `sale_date` as supplied
(defaulting to now only when absent), and the stored total is
`quantity × unit_price − discount`. -/
theorem c5_create_sale_validation (db : List Sale) (sc : SaleCreate)
    (now : Int) (new_id : Nat) :
    ((create_sale db sc now new_id).isSome ↔
      0 < sc.quantity ∧ 0 < sc.unit_price) ∧
    (∀ res : List Sale × Sale, create_sale db sc now new_id = some res →
      res.2.sale_date = sc.sale_date.getD now ∧
      res.2.total_price = (sc.quantity : ℚ) * sc.unit_price - sc.discount.getD 0 ∧
      res.1 = db ++ [res.2]) := by
  constructor
  · by_cases h : saleCreateValid sc = true
    · simp only [create_sale, h, if_true, Option.isSome_some, true_iff]
      simpa [saleCreateValid] using h
    · simp only [create_sale, h, if_false, Bool.false_eq_true, Option.isSome_none]
      simp only [saleCreateValid, Bool.and_eq_true, decide_eq_true_eq] at h
      simpa using h
  · intro res hres
    simp only [create_sale] at hres
    by_cases h : saleCreateValid sc = true
    · rw [if_pos h] at hres
      cases hres.symm
      exact ⟨rfl, rfl, rfl⟩
    · rw [if_neg h] at hres
      cases hres

def futureSaleRow : Sale :=
  { id := 1, product_name := "Dipirona", product_category := "Analgesicos"
    product_code := "DIP500", quantity := 2, unit_price := 10
    total_price := 20, discount := none, pharmacy_name := none
    pharmacy_location := none, customer_type := none, sale_date := 200
    payment_method := none, campaign_id := none, sales_rep := none
    notes := none, is_active := true, created_at := 100, updated_at := 100 }

/-- C5 witness: the future-dated request is stored with its supplied date
and computed total. -/
theorem c5_create_sale_validation_witness :
    futureSaleRow.sale_date = futureSaleCreate.sale_date.getD 100 ∧
    futureSaleRow.total_price =
      (futureSaleCreate.quantity : ℚ) * futureSaleCreate.unit_price -
        futureSaleCreate.discount.getD 0 ∧
    [futureSaleRow] = [] ++ [futureSaleRow] :=
  (c5_create_sale_validation [] futureSaleCreate 100 1).2
    ([futureSaleRow], futureSaleRow)
    (by norm_num [create_sale, saleCreateValid, futureSaleCreate, futureSaleRow])

/-- The value of the ordering metric of `get_top_products` on a result
row: `revenue` and `quantity` select themselves, anything else the
transaction frequency. -/
def topMetricValue (metric : String) (r : TopProductRow) : ℚ :=
  if metric = "revenue" then r.revenue
  else if metric = "quantity" then (r.quantity : ℚ)
  else (r.frequency : ℚ)

/-- C7: `top_products` returns at most `limit` rows, monotonically
non-increasing in the requested metric, and any metric outside
{revenue, quantity, frequency} orders like frequency. -/
theorem c7_top_products_order (db : List Sale) (start_date end_date : Int)
    (metric : String) (limit : Nat) :
    (get_top_products db start_date end_date metric limit).length ≤ limit ∧
    List.Pairwise (fun a b => topMetricValue metric b ≤ topMetricValue metric a)
      (get_top_products db start_date end_date metric limit) ∧
    (metric ≠ "revenue" → metric ≠ "quantity" →
      get_top_products db start_date end_date metric limit =
        get_top_products db start_date end_date "frequency" limit) := by
  refine ⟨?_, ?_, ?_⟩
  · simp only [get_top_products]
    exact List.length_take_le _ _
  · simp only [get_top_products]
    apply List.Pairwise.sublist (List.take_sublist _ _)
    by_cases h1 : metric = "revenue"
    · subst h1
      simp only [if_pos rfl]
      refine ((sortDescBy_sorted (fun r : TopProductRow => r.revenue) _).imp
        (fun hab => ?_))
      simpa [topMetricValue] using hab
    · by_cases h2 : metric = "quantity"
      · subst h2
        simp only [if_neg (by decide : ¬("quantity" : String) = "revenue"),
          if_pos rfl]
        refine ((sortDescBy_sorted (fun r : TopProductRow => r.quantity) _).imp
          (fun hab => ?_))
        simp only [topMetricValue,
          if_neg (by decide : ¬("quantity" : String) = "revenue"), if_pos rfl]
        exact_mod_cast hab
      · simp only [if_neg h1, if_neg h2]
        refine ((sortDescBy_sorted (fun r : TopProductRow => r.frequency) _).imp
          (fun hab => ?_))
        simp only [topMetricValue, if_neg h1, if_neg h2]
        exact_mod_cast hab
  · intro h1 h2
    simp only [get_top_products, if_neg h1, if_neg h2,
      if_neg (by decide : ¬("frequency" : String) = "revenue"),
      if_neg (by decide : ¬("frequency" : String) = "quantity")]

/-- C7 witness: an unrecognised metric string orders like frequency. -/
theorem c7_top_products_order_witness :
    get_top_products [] 0 10 "margin" 3 = get_top_products [] 0 10 "frequency" 3 :=
  (c7_top_products_order [] 0 10 "margin" 3).2.2 (by decide) (by decide)

/-- C1: soft-deleted rows (`is_active = false`) are excluded from every
aggregation and every listing: removing the inactive rows of the ledger
leaves every aggregation result and every sales listing unchanged, so no
soft-deleted row contributes to any returned sum, count, average or
listed record. -/
theorem c1_soft_deleted_excluded (db : List Sale) (start_date end_date : Int)
    (period group_by metric : String) (limit skip page_limit : Nat)
    (product_name category pharmacy : Option String)
    (sd ed : Option Int) (sale_id : Nat) :
    get_performance_summary (activeOnly db) start_date end_date =
      get_performance_summary db start_date end_date ∧
    get_sales_performance (activeOnly db) start_date end_date period =
      get_sales_performance db start_date end_date period ∧
    get_market_share (activeOnly db) start_date end_date group_by =
      get_market_share db start_date end_date group_by ∧
    get_top_products (activeOnly db) start_date end_date metric limit =
      get_top_products db start_date end_date metric limit ∧
    get_customer_analysis (activeOnly db) start_date end_date =
      get_customer_analysis db start_date end_date ∧
    get_revenue_analysis (activeOnly db) start_date end_date group_by =
      get_revenue_analysis db start_date end_date group_by ∧
    calculate_growth_rate (activeOnly db) start_date end_date =
      calculate_growth_rate db start_date end_date ∧
    get_seasonality_analysis (activeOnly db) start_date end_date =
      get_seasonality_analysis db start_date end_date ∧
    get_sales (activeOnly db) skip page_limit product_name category pharmacy
        sd ed =
      get_sales db skip page_limit product_name category pharmacy sd ed ∧
    get_sale (activeOnly db) sale_id = get_sale db sale_id := by
  refine ⟨?_, ?_, ?_, ?_, ?_, ?_, ?_, ?_, ?_, ?_⟩
  · simp only [get_performance_summary]
    rw [filter_activeOnly db _ (fun x hx => by
      simp only [Bool.and_eq_true] at hx; exact hx.2)]
  · simp only [get_sales_performance]
    rw [filter_activeOnly db _ (fun x hx => by
      simp only [Bool.and_eq_true] at hx; exact hx.2)]
  · simp only [get_market_share]
    rw [filter_activeOnly db _ (fun x hx => by
      simp only [Bool.and_eq_true] at hx; exact hx.1.2)]
  · simp only [get_top_products]
    rw [filter_activeOnly db _ (fun x hx => by
      simp only [Bool.and_eq_true] at hx; exact hx.2)]
  · simp only [get_customer_analysis]
    rw [filter_activeOnly db _ (fun x hx => by
      simp only [Bool.and_eq_true] at hx; exact hx.1.2)]
  · simp only [get_revenue_analysis]
    rw [filter_activeOnly db _ (fun x hx => by
      simp only [Bool.and_eq_true] at hx; exact hx.2)]
  · simp only [calculate_growth_rate]
    rw [filter_activeOnly db _ (fun x hx => by
      simp only [Bool.and_eq_true] at hx; exact hx.2),
      filter_activeOnly db _ (fun x hx => by
      simp only [Bool.and_eq_true] at hx; exact hx.2)]
  · simp only [get_seasonality_analysis]
    rw [filter_activeOnly db _ (fun x hx => by
      simp only [Bool.and_eq_true] at hx; exact hx.2)]
  · simp only [get_sales]
    rw [filter_activeOnly db _ (fun _ hx => hx)]
  · simp only [get_sale]
    rw [filter_activeOnly db _ (fun x hx => by
      simp only [Bool.and_eq_true] at hx; exact hx.2)]

/-- Sorting the deduplicated keys ascending yields strictly increasing
keys. -/
theorem pairwise_lt_sortAscBy_dedup (l : List Int) :
    List.Pairwise (· < ·) (sortAscBy id l.dedup) := by
  have hperm := sortAscBy_perm (id : Int → Int) l.dedup
  have hnd : (sortAscBy id l.dedup).Nodup :=
    hperm.nodup_iff.mpr (List.nodup_dedup l)
  have hs := sortAscBy_sorted (id : Int → Int) l.dedup
  exact (hs.and hnd).imp (fun hab => lt_of_le_of_ne hab.1 hab.2)

/-- Every returned bucket row of `get_sales_performance` aggregates exactly
the active in-range ledger rows whose truncated sale date equals the
bucket's period key. -/
theorem sales_performance_row_spec (db : List Sale) (start_date end_date : Int)
    (period : String) :
    ∀ r ∈ get_sales_performance db start_date end_date period,
      r.revenue = ((db.filter (fun x =>
        decide (perfDateGroup period x.sale_date = r.period) &&
          (inPeriod start_date end_date x && x.is_active))).map
          (·.total_price)).sum ∧
      r.quantity = ((db.filter (fun x =>
        decide (perfDateGroup period x.sale_date = r.period) &&
          (inPeriod start_date end_date x && x.is_active))).map
          (·.quantity)).sum ∧
      r.transactions = (db.filter (fun x =>
        decide (perfDateGroup period x.sale_date = r.period) &&
          (inPeriod start_date end_date x && x.is_active))).length := by
  intro r hr
  simp only [get_sales_performance, List.mem_map] at hr
  obtain ⟨k, _, rfl⟩ := hr
  simp [List.filter_filter]

/-- Two active sales in the same quarter of 2024 (January 5 and
February 10), both priced 100. -/
def saleJan : Sale :=
  { id := 1, product_name := "Dipirona", product_category := "Analgesicos"
    product_code := "DIP500", quantity := 1, unit_price := 100
    total_price := 100, discount := none, pharmacy_name := some "Alpha"
    pharmacy_location := none, customer_type := none
    sale_date := daysFromCivil ⟨2024, 1, 5⟩, payment_method := none
    campaign_id := none, sales_rep := none, notes := none, is_active := true
    created_at := 0, updated_at := 0 }

def saleFeb : Sale :=
  { id := 2, product_name := "Amoxicilina", product_category := "Antibioticos"
    product_code := "AMX250", quantity := 1, unit_price := 100
    total_price := 100, discount := none, pharmacy_name := some "Alpha"
    pharmacy_location := none, customer_type := none
    sale_date := daysFromCivil ⟨2024, 2, 10⟩, payment_method := none
    campaign_id := none, sales_rep := none, notes := none, is_active := true
    created_at := 0, updated_at := 0 }

/-- C3 counterexample: `period = "quarter"` does not group into quarter
buckets.  The two sales lie in the same quarter, yet
`get_sales_performance` with `period = "quarter"` puts them into two
distinct month buckets (there is no `"quarter"` branch in the source's
`if` chain, so it falls into the month default). -/
theorem c3_counterexample_quarter_not_quarterly :
    truncQuarter saleJan.sale_date = truncQuarter saleFeb.sale_date ∧
    ((get_sales_performance [saleJan, saleFeb] (daysFromCivil ⟨2024, 1, 1⟩)
        (daysFromCivil ⟨2024, 3, 31⟩) "quarter").map (·.period)) =
      [truncMonth saleJan.sale_date, truncMonth saleFeb.sale_date] ∧
    truncMonth saleJan.sale_date ≠ truncMonth saleFeb.sale_date := by
  refine ⟨by decide, by decide, by decide⟩

/-- C3 (amended): `period` values day, week, month and year select date
truncation at their granularity; any other value — including
`"quarter"` — falls back to month truncation rather than raising; rows are
grouped by the truncated date (each returned bucket aggregates exactly the
matching rows) and returned in strictly ascending order of that date. -/
theorem c3_sales_performance_buckets (db : List Sale)
    (start_date end_date : Int) (period : String) :
    perfDateGroup "day" = truncDay ∧
    perfDateGroup "week" = truncWeek ∧
    perfDateGroup "month" = truncMonth ∧
    perfDateGroup "year" = truncYear ∧
    (period ≠ "day" → period ≠ "week" → period ≠ "month" → period ≠ "year" →
      get_sales_performance db start_date end_date period =
        get_sales_performance db start_date end_date "month") ∧
    List.Pairwise (fun a b => a.period < b.period)
      (get_sales_performance db start_date end_date period) ∧
    (∀ i : Fin (get_sales_performance db start_date end_date period).length,
      ((get_sales_performance db start_date end_date period).get i).revenue =
        ((db.filter (fun x =>
          decide (perfDateGroup period x.sale_date =
            ((get_sales_performance db start_date end_date period).get i).period) &&
            (inPeriod start_date end_date x && x.is_active))).map
            (·.total_price)).sum ∧
      ((get_sales_performance db start_date end_date period).get i).transactions =
        (db.filter (fun x =>
          decide (perfDateGroup period x.sale_date =
            ((get_sales_performance db start_date end_date period).get i).period) &&
            (inPeriod start_date end_date x && x.is_active))).length) := by
  refine ⟨rfl, rfl, rfl, rfl, ?_, ?_, ?_⟩
  · intro h1 h2 h3 h4
    have hp : perfDateGroup period = truncMonth := by
      simp only [perfDateGroup, if_neg h1, if_neg h2, if_neg h3, if_neg h4]
    have hm : perfDateGroup "month" = truncMonth := rfl
    simp only [get_sales_performance, hp, hm]
  · simp only [get_sales_performance]
    rw [List.pairwise_map]
    exact (pairwise_lt_sortAscBy_dedup _).imp (fun hab => hab)
  · intro i
    have h := sales_performance_row_spec db start_date end_date period _
      (List.get_mem _ i.1 i.2)
    exact ⟨h.1, h.2.2⟩

/-- C3 witness: with the two same-quarter sales, `period = "quarter"`
produces exactly the month-level result. -/
theorem c3_sales_performance_buckets_witness :
    get_sales_performance [saleJan, saleFeb] (daysFromCivil ⟨2024, 1, 1⟩)
        (daysFromCivil ⟨2024, 3, 31⟩) "quarter" =
      get_sales_performance [saleJan, saleFeb] (daysFromCivil ⟨2024, 1, 1⟩)
        (daysFromCivil ⟨2024, 3, 31⟩) "month" :=
  (c3_sales_performance_buckets [saleJan, saleFeb] (daysFromCivil ⟨2024, 1, 1⟩)
    (daysFromCivil ⟨2024, 3, 31⟩) "quarter").2.2.2.2.1
    (by decide) (by decide) (by decide) (by decide)

/-! ## Rounding error bounds for C2 -/

theorem round2_err (x : ℚ) : |round2 x - x| ≤ 1 / 200 := by
  have h := abs_sub_round (x * 100)
  rw [abs_sub_comm] at h
  have heq : round2 x - x = (((round (x * 100) : ℤ) : ℚ) - x * 100) / 100 := by
    unfold round2
    ring
  rw [heq, abs_div]
  rw [show |(100 : ℚ)| = 100 by norm_num]
  linarith

theorem sum_round2_sub (l : List ℚ) :
    |(l.map round2).sum - l.sum| ≤ (l.length : ℚ) / 200 := by
  induction l with
  | nil => simp
  | cons a t ih =>
    simp only [List.map_cons, List.sum_cons, List.length_cons]
    have h1 := round2_err a
    have h2 : |round2 a + (t.map round2).sum - (a + t.sum)| ≤
        |round2 a - a| + |(t.map round2).sum - t.sum| := by
      have := abs_add (round2 a - a) ((t.map round2).sum - t.sum)
      calc |round2 a + (t.map round2).sum - (a + t.sum)|
          = |(round2 a - a) + ((t.map round2).sum - t.sum)| := by ring_nf
        _ ≤ _ := this
    have h3 : ((t.length + 1 : Nat) : ℚ) = (t.length : ℚ) + 1 := by push_cast; ring
    rw [h3]
    calc |round2 a + (t.map round2).sum - (a + t.sum)|
        ≤ |round2 a - a| + |(t.map round2).sum - t.sum| := h2
      _ ≤ 1 / 200 + (t.length : ℚ) / 200 := add_le_add h1 ih
      _ = ((t.length : ℚ) + 1) / 200 := by ring

/-- The revenues carried by the percentage-attached rows are the group
revenues. -/
theorem attachShare_revenue_sum (S : List MSGroup) :
    ((attachShare S).map (·.revenue)).sum = (S.map (·.revenue)).sum := by
  simp only [attachShare]
  rw [List.map_map]
  rfl

/-- Each attached percentage is the row's revenue over the total, times
100, rounded to 2 decimals (0 when the total is not positive). -/
theorem attachShare_pct (S : List MSGroup) (i : Fin (attachShare S).length) :
    ((attachShare S).get i).market_share_pct =
      if 0 < ((attachShare S).map (·.revenue)).sum
      then round2 (((attachShare S).get i).revenue /
        ((attachShare S).map (·.revenue)).sum * 100)
      else 0 := by
  rw [attachShare_revenue_sum]
  simp only [attachShare, List.get_eq_getElem, List.getElem_map]

/-- When the total revenue is positive the attached percentages sum to
100 up to the accumulated rounding error. -/
theorem attachShare_sum_bound (S : List MSGroup)
    (hT : 0 < (S.map (·.revenue)).sum) :
    |((attachShare S).map (·.market_share_pct)).sum - 100| ≤
      ((attachShare S).length : ℚ) / 200 := by
  have hT0 : (S.map (·.revenue)).sum ≠ 0 := ne_of_gt hT
  simp only [attachShare, List.map_map, List.length_map]
  have hfun : ((fun r : MarketShareRow => r.market_share_pct) ∘
      (fun t : MSGroup =>
        ({ segment := t.segment
           revenue := t.revenue
           quantity := t.quantity
           transactions := t.transactions
           market_share_pct :=
            if 0 < (S.map (·.revenue)).sum
            then round2 (t.revenue / (S.map (·.revenue)).sum * 100)
            else 0 } : MarketShareRow))) =
      fun t : MSGroup => round2 (t.revenue / (S.map (·.revenue)).sum * 100) := by
    funext t
    show (if 0 < (S.map (·.revenue)).sum
      then round2 (t.revenue / (S.map (·.revenue)).sum * 100) else 0) = _
    rw [if_pos hT]
  rw [hfun]
  have hX : S.map (fun t => round2 (t.revenue / (S.map (·.revenue)).sum * 100)) =
      (S.map (fun t => t.revenue / (S.map (·.revenue)).sum * 100)).map round2 := by
    rw [List.map_map]
    rfl
  have hsum : (S.map (fun t => t.revenue / (S.map (·.revenue)).sum * 100)).sum
      = 100 := by
    have h2 : (fun t : MSGroup => t.revenue / (S.map (·.revenue)).sum * 100) =
        fun t : MSGroup => t.revenue * (100 / (S.map (·.revenue)).sum) := by
      funext t
      ring
    rw [h2, List.sum_map_mul_right, mul_comm]
    exact div_mul_cancel₀ 100 hT0
  rw [hX]
  have hb := sum_round2_sub
    (S.map (fun t => t.revenue / (S.map (·.revenue)).sum * 100))
  rw [hsum, List.length_map] at hb
  exact hb

/-- With zero total revenue every attached percentage is 0. -/
theorem attachShare_pct_zero (S : List MSGroup)
    (hT : (S.map (·.revenue)).sum = 0) (i : Fin (attachShare S).length) :
    ((attachShare S).get i).market_share_pct = 0 := by
  simp only [attachShare, List.get_eq_getElem, List.getElem_map, hT]
  norm_num

/-- C2: every market-share row's percentage is its revenue over the total
revenue of the returned rows, times 100, rounded to 2 decimals; the
percentages sum to 100 up to the accumulated rounding error (at most
half a cent per row) whenever the total is positive, and every percentage
is exactly 0 when the total is 0. -/
theorem c2_market_share_percentages (db : List Sale)
    (start_date end_date : Int) (group_by : String) :
    (∀ i : Fin (get_market_share db start_date end_date group_by).length,
      ((get_market_share db start_date end_date group_by).get i).market_share_pct =
        if 0 < ((get_market_share db start_date end_date group_by).map
            (·.revenue)).sum
        then round2
          (((get_market_share db start_date end_date group_by).get i).revenue /
            ((get_market_share db start_date end_date group_by).map
              (·.revenue)).sum * 100)
        else 0) ∧
    (0 < ((get_market_share db start_date end_date group_by).map
        (·.revenue)).sum →
      |((get_market_share db start_date end_date group_by).map
          (·.market_share_pct)).sum - 100| ≤
        ((get_market_share db start_date end_date group_by).length : ℚ) / 200) ∧
    (∀ i : Fin (get_market_share db start_date end_date group_by).length,
      ((get_market_share db start_date end_date group_by).map
        (·.revenue)).sum = 0 →
      ((get_market_share db start_date end_date group_by).get i).market_share_pct
        = 0) := by
  obtain ⟨S, hS⟩ : ∃ S : List MSGroup,
      get_market_share db start_date end_date group_by = attachShare S :=
    ⟨_, rfl⟩
  rw [hS]
  refine ⟨fun i => attachShare_pct S i, fun hT => ?_, fun i h0 => ?_⟩
  · rw [attachShare_revenue_sum] at hT
    exact attachShare_sum_bound S hT
  · rw [attachShare_revenue_sum] at h0
    exact attachShare_pct_zero S h0 i

def w2Sale : Sale :=
  { id := 9, product_name := "Dipirona", product_category := "Analgesicos"
    product_code := "DIP501", quantity := 1, unit_price := 5
    total_price := 5, discount := none, pharmacy_name := some "Alpha"
    pharmacy_location := none, customer_type := none, sale_date := 19727
    payment_method := none, campaign_id := none, sales_rep := none
    notes := none, is_active := true, created_at := 0, updated_at := 0 }

def w2ZeroSale : Sale :=
  { id := 10, product_name := "Brinde", product_category := "Amostras"
    product_code := "BRD001", quantity := 1, unit_price := 1
    total_price := 0, discount := some 1, pharmacy_name := some "Alpha"
    pharmacy_location := none, customer_type := none, sale_date := 19727
    payment_method := none, campaign_id := none, sales_rep := none
    notes := none, is_active := true, created_at := 0, updated_at := 0 }

/-- C2 witness: a single 5-revenue sale gives percentages summing to 100
within the bound, and a single zero-revenue sale gives percentage 0. -/
theorem c2_market_share_percentages_witness :
    |((get_market_share [w2Sale] 19700 19800 "category").map
        (·.market_share_pct)).sum - 100| ≤
      ((get_market_share [w2Sale] 19700 19800 "category").length : ℚ) / 200 ∧
    ((get_market_share [w2ZeroSale] 19700 19800 "category").get
        ⟨0, by decide⟩).market_share_pct = 0 :=
  ⟨(c2_market_share_percentages [w2Sale] 19700 19800 "category").2.1
      (by norm_num [get_market_share, attachShare, inPeriod, marketShareField,
        sortDescBy, List.insertionSort, List.orderedInsert, w2Sale,
        List.filterMap, List.dedup, List.filter,
        decide_eq_false (by decide : ¬("category" = "product")),
        decide_eq_false (by decide : ¬("Dipirona" = "Analgesicos")),
        decide_eq_true (by decide : ("Analgesicos" : String) = "Analgesicos")]),
   (c2_market_share_percentages [w2ZeroSale] 19700 19800 "category").2.2
      ⟨0, by decide⟩
      (by norm_num [get_market_share, attachShare, inPeriod, marketShareField,
        sortDescBy, List.insertionSort, List.orderedInsert, w2ZeroSale,
        List.filterMap, List.dedup, List.filter,
        decide_eq_false (by decide : ¬("category" = "product")),
        decide_eq_false (by decide : ¬("Brinde" = "Amostras")),
        decide_eq_true (by decide : ("Amostras" : String) = "Amostras")])⟩

/-! ## Percentile monotonicity (for C9) -/

theorem getD_mono_of_sorted {xs : List ℚ} (hs : List.Sorted (· ≤ ·) xs)
    {i j : Nat} (hij : i ≤ j) (hj : j < xs.length) :
    xs.getD i 0 ≤ xs.getD j 0 := by
  have hi : i < xs.length := lt_of_le_of_lt hij hj
  rw [List.getD_eq_getElem xs 0 hi, List.getD_eq_getElem xs 0 hj]
  have h := List.Sorted.rel_get_of_le hs
    (a := ⟨i, hi⟩) (b := ⟨j, hj⟩) (by exact hij)
  simpa using h

theorem interpolate_mono {xs : List ℚ} (hs : List.Sorted (· ≤ ·) xs)
    (hne : xs ≠ []) {h1 h2 : ℚ} (hpos : 0 ≤ h1) (h12 : h1 ≤ h2)
    (hub : h2 ≤ (xs.length : ℚ) - 1) :
    interpolate xs h1 ≤ interpolate xs h2 := by
  have hn : 0 < xs.length := List.length_pos.mpr hne
  have hpos2 : 0 ≤ h2 := le_trans hpos h12
  have hf1 : (0 : ℤ) ≤ ⌊h1⌋ := Int.le_floor.mpr (by exact_mod_cast hpos)
  have hf2 : (0 : ℤ) ≤ ⌊h2⌋ := Int.le_floor.mpr (by exact_mod_cast hpos2)
  have hc1 : ((⌊h1⌋.toNat : ℚ)) = ((⌊h1⌋ : ℤ) : ℚ) := by
    exact_mod_cast congrArg (fun z : ℤ => (z : ℚ)) (Int.toNat_of_nonneg hf1)
  have hc2 : ((⌊h2⌋.toNat : ℚ)) = ((⌊h2⌋ : ℤ) : ℚ) := by
    exact_mod_cast congrArg (fun z : ℤ => (z : ℚ)) (Int.toNat_of_nonneg hf2)
  have F1 : ((⌊h1⌋.toNat : ℚ)) ≤ h1 := by rw [hc1]; exact Int.floor_le h1
  have F2 : h1 < ((⌊h1⌋.toNat : ℚ)) + 1 := by rw [hc1]; exact Int.lt_floor_add_one h1
  have F3 : ((⌊h2⌋.toNat : ℚ)) ≤ h2 := by rw [hc2]; exact Int.floor_le h2
  have F5 : ⌊h1⌋.toNat ≤ ⌊h2⌋.toNat := Int.toNat_le_toNat (Int.floor_le_floor h12)
  have F6 : ⌊h2⌋.toNat < xs.length := by
    rw [Int.toNat_lt hf2]
    have hfl : ⌊h2⌋ ≤ ⌊((xs.length : ℚ)) - 1⌋ := Int.floor_le_floor hub
    have hcast : ((xs.length : ℚ)) - 1 = (((xs.length : ℤ) - 1 : ℤ) : ℚ) := by
      push_cast
      ring
    rw [hcast, Int.floor_intCast] at hfl
    omega
  have F7 : ⌊h1⌋.toNat < xs.length := lt_of_le_of_lt F5 F6
  simp only [interpolate]
  set n := xs.length with hnn
  set i1 := ⌊h1⌋.toNat with hi1
  set i2 := ⌊h2⌋.toNat with hi2
  have G1 : i1 ≤ min (i1 + 1) (n - 1) := le_min (Nat.le_succ i1) (by omega)
  have G2 : min (i1 + 1) (n - 1) < n := lt_of_le_of_lt (min_le_right _ _) (by omega)
  have G1b : i2 ≤ min (i2 + 1) (n - 1) := le_min (Nat.le_succ i2) (by omega)
  have G2b : min (i2 + 1) (n - 1) < n := lt_of_le_of_lt (min_le_right _ _) (by omega)
  have hlohi1 : xs.getD i1 0 ≤ xs.getD (min (i1 + 1) (n - 1)) 0 :=
    getD_mono_of_sorted hs G1 G2
  have hlohi2 : xs.getD i2 0 ≤ xs.getD (min (i2 + 1) (n - 1)) 0 :=
    getD_mono_of_sorted hs G1b G2b
  rcases eq_or_lt_of_le F5 with heq | hlt
  · rw [← heq]
    have hmul := mul_le_mul_of_nonneg_right
      (by linarith : h1 - (i1 : ℚ) ≤ h2 - (i1 : ℚ))
      (by linarith : (0 : ℚ) ≤ xs.getD (min (i1 + 1) (n - 1)) 0 - xs.getD i1 0)
    linarith
  · have A : xs.getD i1 0 + (h1 - (i1 : ℚ)) *
        (xs.getD (min (i1 + 1) (n - 1)) 0 - xs.getD i1 0) ≤
        xs.getD (min (i1 + 1) (n - 1)) 0 := by
      nlinarith [mul_nonneg (by linarith : (0 : ℚ) ≤ 1 - (h1 - (i1 : ℚ)))
        (by linarith : (0 : ℚ) ≤ xs.getD (min (i1 + 1) (n - 1)) 0 - xs.getD i1 0)]
    have B : xs.getD (min (i1 + 1) (n - 1)) 0 ≤ xs.getD i2 0 :=
      getD_mono_of_sorted hs (le_trans (min_le_left _ _) hlt) F6
    have C : xs.getD i2 0 ≤ xs.getD i2 0 + (h2 - (i2 : ℚ)) *
        (xs.getD (min (i2 + 1) (n - 1)) 0 - xs.getD i2 0) := by
      nlinarith [mul_nonneg (by linarith : (0 : ℚ) ≤ h2 - (i2 : ℚ))
        (by linarith : (0 : ℚ) ≤ xs.getD (min (i2 + 1) (n - 1)) 0 - xs.getD i2 0)]
    linarith

/-- `np.percentile` is monotone in the requested percentile. -/
theorem percentile_mono (l : List ℚ) (hne : l ≠ []) {q1 q2 : ℚ}
    (h0 : 0 ≤ q1) (h12 : q1 ≤ q2) (h100 : q2 ≤ 100) :
    percentile l q1 ≤ percentile l q2 := by
  unfold percentile
  have hperm := sortAscBy_perm (id : ℚ → ℚ) l
  have hlen : (sortAscBy id l).length = l.length := hperm.length_eq
  have hn : 0 < l.length := List.length_pos.mpr hne
  have hne2 : sortAscBy id l ≠ [] := by
    intro h
    rw [← List.length_eq_zero, hlen] at h
    omega
  have hc : (0 : ℚ) ≤ (l.length : ℚ) - 1 := by
    have : (1 : ℚ) ≤ (l.length : ℚ) := by exact_mod_cast hn
    linarith
  apply interpolate_mono (sortAscBy_sorted id l) hne2
  · exact div_nonneg (mul_nonneg hc h0) (by norm_num)
  · apply div_le_div_of_nonneg_right ?_ (by norm_num)
    exact mul_le_mul_of_nonneg_left h12 hc
  · rw [hlen]
    calc ((l.length : ℚ) - 1) * q2 / 100 ≤ ((l.length : ℚ) - 1) * 100 / 100 := by
          apply div_le_div_of_nonneg_right ?_ (by norm_num)
          exact mul_le_mul_of_nonneg_left h100 hc
      _ = (l.length : ℚ) - 1 := by ring

/-- `np.percentile` only depends on the multiset of values. -/
theorem percentile_perm {l1 l2 : List ℚ} (h : l1.Perm l2) (q : ℚ) :
    percentile l1 q = percentile l2 q := by
  unfold percentile
  haveI : IsAntisymm ℚ (fun a b : ℚ => id a ≤ id b) :=
    ⟨fun _ _ h1 h2 => le_antisymm h1 h2⟩
  have hsort : sortAscBy id l1 = sortAscBy id l2 :=
    List.eq_of_perm_of_sorted
      ((sortAscBy_perm id l1).trans (h.trans (sortAscBy_perm id l2).symm))
      (sortAscBy_sorted id l1) (sortAscBy_sorted id l2)
  rw [hsort, h.length_eq]

/-- Counting a list against the three bands `[b, ∞)`, `[a, b)`, `(-∞, a)`
partitions it whenever `a ≤ b`. -/
theorem countP_partition (l : List ℚ) {a b : ℚ} (hab : a ≤ b) :
    l.countP (fun r => decide (b ≤ r)) +
      l.countP (fun r => decide (a ≤ r) && decide (r < b)) +
      l.countP (fun r => decide (r < a)) = l.length := by
  induction l with
  | nil => simp
  | cons x t ih =>
    simp only [List.countP_cons, List.length_cons]
    rcases le_or_lt a x with hax | hax
    · rcases le_or_lt b x with hbx | hbx
      · have h1 : ¬x < a := not_lt.mpr hax
        have h2 : ¬x < b := not_lt.mpr hbx
        simp [hbx, hax, h1, h2]
        omega
      · have h3 : ¬b ≤ x := not_le.mpr hbx
        have h1 : ¬x < a := not_lt.mpr hax
        simp [hax, hbx, h3, h1]
        omega
    · have h4 : ¬a ≤ x := not_le.mpr hax
      have h5 : ¬b ≤ x := not_le.mpr (lt_of_lt_of_le hax hab)
      simp [hax, h4, h5]
      omega

/-- The per-pharmacy revenues of a customer-analysis result, read off the
returned top-customer rows. -/
def customerRevenues (db : List Sale) (start_date end_date : Int) : List ℚ :=
  (get_customer_analysis db start_date end_date).top_customers.map
    (·.total_revenue)

/-- The segmentation block of `get_customer_analysis`, characterised: the
three counts are the bands `[p90, ∞)`, `[p66, p90)`, `(-∞, p66)` of the
66th and 90th revenue percentiles, and they always partition the customer
set (the computed 33rd percentile plays no role). -/
theorem segments_spec (revsC : List ℚ) :
    (if revsC.isEmpty then (⟨0, 0, 0⟩ : Segments)
      else
        { high_value := revsC.countP (fun r => decide
            ([percentile revsC 33, percentile revsC 66,
              percentile revsC 90].getD 2 0 ≤ r))
          medium_value := revsC.countP (fun r => decide
            ([percentile revsC 33, percentile revsC 66,
              percentile revsC 90].getD 1 0 ≤ r) && decide
            (r < [percentile revsC 33, percentile revsC 66,
              percentile revsC 90].getD 2 0))
          low_value := revsC.countP (fun r => decide
            (r < [percentile revsC 33, percentile revsC 66,
              percentile revsC 90].getD 1 0)) }).high_value =
      revsC.countP (fun r => decide (percentile revsC 90 ≤ r)) ∧
    (if revsC.isEmpty then (⟨0, 0, 0⟩ : Segments)
      else
        { high_value := revsC.countP (fun r => decide
            ([percentile revsC 33, percentile revsC 66,
              percentile revsC 90].getD 2 0 ≤ r))
          medium_value := revsC.countP (fun r => decide
            ([percentile revsC 33, percentile revsC 66,
              percentile revsC 90].getD 1 0 ≤ r) && decide
            (r < [percentile revsC 33, percentile revsC 66,
              percentile revsC 90].getD 2 0))
          low_value := revsC.countP (fun r => decide
            (r < [percentile revsC 33, percentile revsC 66,
              percentile revsC 90].getD 1 0)) }).medium_value =
      revsC.countP (fun r => decide (percentile revsC 66 ≤ r) && decide
        (r < percentile revsC 90)) ∧
    (if revsC.isEmpty then (⟨0, 0, 0⟩ : Segments)
      else
        { high_value := revsC.countP (fun r => decide
            ([percentile revsC 33, percentile revsC 66,
              percentile revsC 90].getD 2 0 ≤ r))
          medium_value := revsC.countP (fun r => decide
            ([percentile revsC 33, percentile revsC 66,
              percentile revsC 90].getD 1 0 ≤ r) && decide
            (r < [percentile revsC 33, percentile revsC 66,
              percentile revsC 90].getD 2 0))
          low_value := revsC.countP (fun r => decide
            (r < [percentile revsC 33, percentile revsC 66,
              percentile revsC 90].getD 1 0)) }).low_value =
      revsC.countP (fun r => decide (r < percentile revsC 66)) ∧
    ((if revsC.isEmpty then (⟨0, 0, 0⟩ : Segments)
      else
        { high_value := revsC.countP (fun r => decide
            ([percentile revsC 33, percentile revsC 66,
              percentile revsC 90].getD 2 0 ≤ r))
          medium_value := revsC.countP (fun r => decide
            ([percentile revsC 33, percentile revsC 66,
              percentile revsC 90].getD 1 0 ≤ r) && decide
            (r < [percentile revsC 33, percentile revsC 66,
              percentile revsC 90].getD 2 0))
          low_value := revsC.countP (fun r => decide
            (r < [percentile revsC 33, percentile revsC 66,
              percentile revsC 90].getD 1 0)) }).high_value +
      (if revsC.isEmpty then (⟨0, 0, 0⟩ : Segments)
      else
        { high_value := revsC.countP (fun r => decide
            ([percentile revsC 33, percentile revsC 66,
              percentile revsC 90].getD 2 0 ≤ r))
          medium_value := revsC.countP (fun r => decide
            ([percentile revsC 33, percentile revsC 66,
              percentile revsC 90].getD 1 0 ≤ r) && decide
            (r < [percentile revsC 33, percentile revsC 66,
              percentile revsC 90].getD 2 0))
          low_value := revsC.countP (fun r => decide
            (r < [percentile revsC 33, percentile revsC 66,
              percentile revsC 90].getD 1 0)) }).medium_value +
      (if revsC.isEmpty then (⟨0, 0, 0⟩ : Segments)
      else
        { high_value := revsC.countP (fun r => decide
            ([percentile revsC 33, percentile revsC 66,
              percentile revsC 90].getD 2 0 ≤ r))
          medium_value := revsC.countP (fun r => decide
            ([percentile revsC 33, percentile revsC 66,
              percentile revsC 90].getD 1 0 ≤ r) && decide
            (r < [percentile revsC 33, percentile revsC 66,
              percentile revsC 90].getD 2 0))
          low_value := revsC.countP (fun r => decide
            (r < [percentile revsC 33, percentile revsC 66,
              percentile revsC 90].getD 1 0)) }).low_value =
      revsC.length) := by
  by_cases hE : revsC.isEmpty = true
  · have hnil : revsC = [] := List.isEmpty_iff.mp hE
    subst hnil
    simp
  · have hne : revsC ≠ [] := fun h => hE (by simp [h])
    have hg1 : [percentile revsC 33, percentile revsC 66,
        percentile revsC 90].getD 1 0 = percentile revsC 66 := rfl
    have hg2 : [percentile revsC 33, percentile revsC 66,
        percentile revsC 90].getD 2 0 = percentile revsC 90 := rfl
    have hmono : percentile revsC 66 ≤ percentile revsC 90 :=
      percentile_mono revsC hne (by norm_num) (by norm_num) (by norm_num)
    simp only [hE, if_false, Bool.false_eq_true, hg1, hg2]
    exact ⟨trivial, trivial, trivial, countP_partition revsC hmono⟩

/-- C9: in `get_customer_analysis`, high/medium/low value counts are the
bands of the 66th and 90th percentile of per-pharmacy revenue (the
computed 33rd percentile affects no count), and they partition the
customer set: `high + medium + low = total_customers`. -/
theorem c9_customer_value_segments (db : List Sale) (start_date end_date : Int) :
    (get_customer_analysis db start_date end_date).segments.high_value =
      (customerRevenues db start_date end_date).countP (fun r =>
        decide (percentile (customerRevenues db start_date end_date) 90 ≤ r)) ∧
    (get_customer_analysis db start_date end_date).segments.medium_value =
      (customerRevenues db start_date end_date).countP (fun r =>
        decide (percentile (customerRevenues db start_date end_date) 66 ≤ r) &&
        decide (r < percentile (customerRevenues db start_date end_date) 90)) ∧
    (get_customer_analysis db start_date end_date).segments.low_value =
      (customerRevenues db start_date end_date).countP (fun r =>
        decide (r < percentile (customerRevenues db start_date end_date) 66)) ∧
    (get_customer_analysis db start_date end_date).segments.high_value +
      (get_customer_analysis db start_date end_date).segments.medium_value +
      (get_customer_analysis db start_date end_date).segments.low_value =
      (get_customer_analysis db start_date end_date).total_customers := by
  obtain ⟨C, hC⟩ : ∃ C : List CustomerRow,
      get_customer_analysis db start_date end_date =
        { total_customers := C.length
          segments :=
            if (C.map (·.total_revenue)).isEmpty then ⟨0, 0, 0⟩
            else
              { high_value := (C.map (·.total_revenue)).countP (fun r => decide
                  ([percentile (C.map (·.total_revenue)) 33,
                    percentile (C.map (·.total_revenue)) 66,
                    percentile (C.map (·.total_revenue)) 90].getD 2 0 ≤ r))
                medium_value := (C.map (·.total_revenue)).countP (fun r => decide
                  ([percentile (C.map (·.total_revenue)) 33,
                    percentile (C.map (·.total_revenue)) 66,
                    percentile (C.map (·.total_revenue)) 90].getD 1 0 ≤ r) &&
                  decide (r < [percentile (C.map (·.total_revenue)) 33,
                    percentile (C.map (·.total_revenue)) 66,
                    percentile (C.map (·.total_revenue)) 90].getD 2 0))
                low_value := (C.map (·.total_revenue)).countP (fun r => decide
                  (r < [percentile (C.map (·.total_revenue)) 33,
                    percentile (C.map (·.total_revenue)) 66,
                    percentile (C.map (·.total_revenue)) 90].getD 1 0)) }
          top_customers := sortDescBy (·.total_revenue) C
          avg_customer_value :=
            if (C.map (·.total_revenue)).isEmpty then 0
            else (C.map (·.total_revenue)).sum /
              ((C.map (·.total_revenue)).length : ℚ) } := ⟨_, rfl⟩
  have hrevs : customerRevenues db start_date end_date =
      (sortDescBy (·.total_revenue) C).map (·.total_revenue) := by
    rw [customerRevenues, hC]
  have hperm : ((sortDescBy (·.total_revenue) C).map (·.total_revenue)).Perm
      (C.map (·.total_revenue)) :=
    (sortDescBy_perm (·.total_revenue) C).map (·.total_revenue)
  have h90 := percentile_perm hperm 90
  have h66 := percentile_perm hperm 66
  have hspec := segments_spec (C.map (·.total_revenue))
  rw [hC, hrevs]
  refine ⟨?_, ?_, ?_, ?_⟩
  · rw [h90, hperm.countP_eq]
    exact hspec.1
  · rw [h90, h66, hperm.countP_eq]
    exact hspec.2.1
  · rw [h66, hperm.countP_eq]
    exact hspec.2.2.1
  · have h := hspec.2.2.2
    rw [List.length_map] at h
    exact h

end Pharmalytics
